import Mathlib

/-!
Shallow embedding of the OpenDocQA backend (src/backend/db.py,
src/backend/rag_pipeline.py, src/backend/embeddings.py) and proofs about
its retrieval, synthesis and lifecycle operations.

Python floats are embedded as exact rationals (and, for the in-process
cosine similarity that takes a square root, as reals).  External
collaborators (the OpenAI embedding provider, the language model, the
langchain text splitter, the pgvector `<=>` distance operator) are
parameters of the definitions that call them.
-/

namespace DocQA

/-- A value stored in a chunk's JSON metadata mapping
(`doc_metadata` in src/backend/db.py, the metadata dicts built in
src/backend/embeddings.py `process_document`). -/
inductive MVal where
  | str : String → MVal
  | nat : Nat → MVal
deriving DecidableEq, Repr

/-- A Python dict with string keys: an insertion-ordered association list. -/
abbrev Dict := List (String × MVal)

/-- Python `d[k] = v`: replace the value of the existing binding of `k` in
place (a dict binds each key once), otherwise append the new binding. -/
def dictInsert (d : Dict) (k : String) (v : MVal) : Dict :=
  match d with
  | [] => [(k, v)]
  | kv :: t => if kv.1 == k then (k, v) :: t else kv :: dictInsert t k v

/-- Python `d.update(other)`: `d[k] = v` for each binding of `other` in order. -/
def dictUpdate (d other : Dict) : Dict :=
  other.foldl (fun acc kv => dictInsert acc kv.1 kv.2) d

/-- Python `d[k]` as an Option (a missing key raises KeyError). -/
def dictGet (d : Dict) (k : String) : Option MVal :=
  (d.find? (fun kv => kv.1 == k)).map (fun kv => kv.2)

/-- A row of the `documents` table (class `Document` in src/backend/db.py):
one chunk's content, metadata and embedding with the store-assigned id. -/
structure DocRow where
  id : Nat
  filename : String
  content : String
  metadata : Dict
  embedding : List ℚ
deriving DecidableEq, Repr

/-- One row of the result set of `get_similar_documents`: the selected
columns together with the computed `similarity` column. -/
structure ScoredDoc where
  id : Nat
  filename : String
  content : String
  metadata : Dict
  similarity : ℚ
deriving DecidableEq, Repr

/-- The SELECT projection of the query in `get_similar_documents`
(src/backend/db.py lines 116-123): the row's columns plus
`1 - (embedding <=> :embedding)` as `similarity`, where `d e` models the
pgvector cosine-distance operator `<=>` applied to the stored embedding `e`
and the fixed query embedding. -/
def scoreRow (d : List ℚ → ℚ) (r : DocRow) : ScoredDoc :=
  ⟨r.id, r.filename, r.content, r.metadata, 1 - d r.embedding⟩

/-- The rows passing `WHERE 1 - (embedding <=> :embedding) > :threshold`. -/
def matching (store : List DocRow) (d : List ℚ → ℚ) (threshold : ℚ) :
    List DocRow :=
  store.filter (fun r => decide (threshold < 1 - d r.embedding))

/-- The SQL query run by `get_similar_documents` (src/backend/db.py lines
116-129).  `ORDER BY embedding <=> :embedding` sorts ascending on distance;
the query names no secondary sort key, so SQL leaves the relative order of
equal-distance rows unspecified: the result set is any distance-sorted
permutation of the matching rows, truncated by `LIMIT` and projected. -/
def GetSimilarRows (store : List DocRow) (d : List ℚ → ℚ) (threshold : ℚ)
    (lim : Nat) (res : List ScoredDoc) : Prop :=
  ∃ l : List DocRow,
    l.Perm (matching store d threshold) ∧
    l.Pairwise (fun a b => d a.embedding ≤ d b.embedding) ∧
    res = (l.take lim).map (scoreRow d)

/-- Every element of a search result set comes from a stored row that
cleared the threshold and carries that row's projected similarity. -/
theorem getSimilarRows_mem {store : List DocRow} {d : List ℚ → ℚ}
    {threshold : ℚ} {lim : Nat} {res : List ScoredDoc}
    (h : GetSimilarRows store d threshold lim res) :
    ∀ x ∈ res, ∃ r ∈ store,
      x = scoreRow d r ∧ threshold < 1 - d r.embedding := by
  obtain ⟨l, hperm, _, hres⟩ := h
  intro x hx
  rw [hres] at hx
  obtain ⟨r, hr, hrx⟩ := List.mem_map.mp hx
  have hrl : r ∈ l := List.mem_of_mem_take hr
  have hrm : r ∈ matching store d threshold := hperm.mem_iff.mp hrl
  obtain ⟨hrstore, hrthr⟩ := List.mem_filter.mp hrm
  exact ⟨r, hrstore, hrx.symm, of_decide_eq_true hrthr⟩

/-- C1: for every query embedding (represented by its distance column `d`),
limit and similarity threshold, every result set of the vector store's
search is ranked by descending similarity, contains only rows whose
similarity is strictly greater than the threshold, has length at most the
limit, and reports as similarity exactly `1 -` the cosine distance of the
stored row's embedding. -/
theorem c1_search_ranked_filtered_limited
    (store : List DocRow) (d : List ℚ → ℚ) (threshold : ℚ) (lim : Nat)
    (res : List ScoredDoc) (h : GetSimilarRows store d threshold lim res) :
    res.Pairwise (fun a b => b.similarity ≤ a.similarity) ∧
    (∀ x ∈ res, threshold < x.similarity) ∧
    res.length ≤ lim ∧
    (∀ x ∈ res, ∃ r ∈ store, x = scoreRow d r ∧
      x.similarity = 1 - d r.embedding) := by
  have hmem : ∀ x ∈ res, ∃ r ∈ store,
      x = scoreRow d r ∧ threshold < 1 - d r.embedding := getSimilarRows_mem h
  obtain ⟨l, hperm, hsort, hres⟩ := h
  refine ⟨?_, ?_, ?_, ?_⟩
  · rw [hres]
    refine List.Pairwise.map _ ?_ (hsort.sublist (List.take_sublist lim l))
    intro a b hab
    simp only [scoreRow]
    linarith
  · intro x hx
    obtain ⟨r, _, hxr, hthr⟩ := hmem x hx
    rw [hxr]
    simpa [scoreRow] using hthr
  · rw [hres]
    simp only [List.length_map, List.length_take]
    exact min_le_left _ _
  · intro x hx
    obtain ⟨r, hrstore, hxr, _⟩ := hmem x hx
    exact ⟨r, hrstore, hxr, by rw [hxr]; rfl⟩

/-- A concrete distance column for witnesses: the distance of a stored
embedding to the fixed query is its first coordinate. -/
def dEx : List ℚ → ℚ := fun e => e.headD 0

/-- A concrete stored chunk used by witnesses. -/
def rowA : DocRow := ⟨1, "a.txt", "alpha", [], [3/10]⟩

/-- A second concrete stored chunk used by witnesses. -/
def rowB : DocRow := ⟨2, "b.txt", "beta", [], [1/10]⟩

/-- A valid search result on the two-row store: both rows match threshold 0
and are ordered by ascending distance (rowB before rowA). -/
theorem getSimilarRows_example :
    GetSimilarRows [rowA, rowB] dEx 0 5
      [scoreRow dEx rowB, scoreRow dEx rowA] := by
  refine ⟨[rowB, rowA], ?_, ?_, ?_⟩
  · have hm : matching [rowA, rowB] dEx 0 = [rowA, rowB] := by
      simp [matching, rowA, rowB, dEx]
      norm_num
    rw [hm]
    exact List.Perm.swap rowA rowB []
  · simp [rowA, rowB, dEx]
    norm_num
  · simp

/-- Witness for C1 at a concrete search: the two-row result is sorted by
descending similarity, all similarities clear the threshold 0, and the
result is no longer than the limit. -/
theorem c1_search_witness :
    ([scoreRow dEx rowB, scoreRow dEx rowA] : List ScoredDoc).Pairwise
      (fun a b => b.similarity ≤ a.similarity) ∧
    (∀ x ∈ ([scoreRow dEx rowB, scoreRow dEx rowA] : List ScoredDoc),
      (0 : ℚ) < x.similarity) ∧
    ([scoreRow dEx rowB, scoreRow dEx rowA] : List ScoredDoc).length ≤ 5 := by
  obtain ⟨h1, h2, h3, _⟩ :=
    c1_search_ranked_filtered_limited [rowA, rowB] dEx 0 5
      [scoreRow dEx rowB, scoreRow dEx rowA] getSimilarRows_example
  exact ⟨h1, h2, h3⟩

/-- A stored chunk whose embedding ties with `rowT2` under `dEx`. -/
def rowT1 : DocRow := ⟨1, "t1.txt", "one", [], [1/2]⟩

/-- A stored chunk inserted after `rowT1` with the same embedding, so the
two rows are at the same cosine distance from any query. -/
def rowT2 : DocRow := ⟨2, "t2.txt", "two", [], [1/2]⟩

/-- C8 counterexample: on a store with two equal-similarity rows, the result
listing the higher id first is a valid outcome of the search query (the SQL
names no secondary sort key), and it does not order ties by ascending id —
so the claim that ties are returned lower id first fails. -/
theorem c8_tie_order_counterexample :
    GetSimilarRows [rowT1, rowT2] dEx 0 5
      [scoreRow dEx rowT2, scoreRow dEx rowT1] ∧
    ¬ List.Pairwise (fun a b : ScoredDoc => a.similarity = b.similarity → a.id < b.id)
      [scoreRow dEx rowT2, scoreRow dEx rowT1] := by
  constructor
  · refine ⟨[rowT2, rowT1], ?_, ?_, ?_⟩
    · have hm : matching [rowT1, rowT2] dEx 0 = [rowT1, rowT2] := by
        simp [matching, rowT1, rowT2, dEx]
        norm_num
      rw [hm]
      exact List.Perm.swap rowT1 rowT2 []
    · simp [rowT1, rowT2, dEx]
    · simp
  · intro h
    have := (List.pairwise_cons.mp h).1 (scoreRow dEx rowT1) (by simp)
    have h21 : (scoreRow dEx rowT2).similarity = (scoreRow dEx rowT1).similarity := by
      simp [scoreRow, rowT1, rowT2, dEx]
    have := this h21
    simp [scoreRow, rowT1, rowT2] at this

/-- C8 amended: when two chunks have equal similarity to the query, the
search query specifies no tiebreaker, so both relative orders are valid
results of the same search — the tie order, hence the result sequence, is
not determined. -/
theorem c8_tie_order_unspecified :
    GetSimilarRows [rowT1, rowT2] dEx 0 5
      [scoreRow dEx rowT1, scoreRow dEx rowT2] ∧
    GetSimilarRows [rowT1, rowT2] dEx 0 5
      [scoreRow dEx rowT2, scoreRow dEx rowT1] ∧
    [scoreRow dEx rowT1, scoreRow dEx rowT2] ≠
      [scoreRow dEx rowT2, scoreRow dEx rowT1] := by
  have hm : matching [rowT1, rowT2] dEx 0 = [rowT1, rowT2] := by
    simp [matching, rowT1, rowT2, dEx]
    norm_num
  refine ⟨⟨[rowT1, rowT2], ?_, ?_, ?_⟩, ⟨[rowT2, rowT1], ?_, ?_, ?_⟩, ?_⟩
  · rw [hm]
  · simp [rowT1, rowT2, dEx]
  · simp
  · rw [hm]
    exact List.Perm.swap rowT1 rowT2 []
  · simp [rowT1, rowT2, dEx]
  · simp
  · simp [scoreRow, rowT1, rowT2]

/-- The whole of `get_similar_documents` (src/backend/db.py lines 104-144).
The `Except` input stands for the outcome of the database interaction: `ok`
carries the table contents the query runs over, `error` a raised exception
(connectivity or SQL failure).  The broad `except` catches any exception,
logs it and returns the empty list (lines 142-144), so no error reaches the
caller. -/
def GetSimilarDocuments (dbRows : Except String (List DocRow))
    (d : List ℚ → ℚ) (threshold : ℚ) (lim : Nat) (res : List ScoredDoc) :
    Prop :=
  match dbRows with
  | .ok rows => GetSimilarRows rows d threshold lim res
  | .error _ => res = []

/-- C5 counterexample: a store failure during retrieval yields the empty
list — exactly the value of an empty-but-valid retrieval on an empty store —
and no error is surfaced, so a failure is not distinct from a normal
"no relevant context" outcome. -/
theorem c5_counterexample :
    GetSimilarDocuments (Except.error "connection refused") dEx (7/10) 5 [] ∧
    GetSimilarDocuments (Except.ok []) dEx (7/10) 5 [] ∧
    (Except.error "connection refused" : Except String (List DocRow)).isOk
      = false := by
  refine ⟨rfl, ⟨[], ?_, ?_, ?_⟩, rfl⟩
  · simp [matching]
  · simp
  · simp

/-- C5 amended: a provider or store failure during retrieval is caught by
`get_similar_documents` and converted into the empty sequence — the result
on a failing store is exactly the empty list, indistinguishable from the
normal no-match outcome, and the error never propagates to the caller. -/
theorem c5_store_failure_swallowed (e : String) (d : List ℚ → ℚ)
    (threshold : ℚ) (lim : Nat) (res : List ScoredDoc) :
    GetSimilarDocuments (Except.error e) d threshold lim res ↔ res = [] :=
  Iff.rfl

/-- `RAGPipeline.delete_document` (src/backend/rag_pipeline.py lines
232-253) on a reachable store: query all chunks with the given filename,
delete each, commit, and return True.  The broad `except` triggers only on
a session failure; the success flag does not depend on whether any chunk
matched the filename. -/
def delete_document (store : List DocRow) (filename : String) :
    List DocRow × Bool :=
  (store.filter (fun r => r.filename != filename), true)

/-- C6 counterexample: deleting a filename that has no chunks returns True,
not the False the claim requires. -/
theorem c6_counterexample :
    delete_document [] "ghost.txt" = ([], true) ∧ true ≠ false := by
  exact ⟨rfl, by simp⟩

/-- C6 amended: the delete operation removes every chunk whose filename
matches and — never raising an error — returns True even when the filename
had no chunks (the flag reports that the transaction committed, not that
anything was deleted). -/
theorem c6_delete_removes_all_returns_true (store : List DocRow)
    (filename : String) :
    (delete_document store filename).1 =
      store.filter (fun r => r.filename != filename) ∧
    (∀ r ∈ (delete_document store filename).1, r.filename ≠ filename) ∧
    (delete_document store filename).2 = true := by
  refine ⟨rfl, ?_, rfl⟩
  intro r hr
  simp [delete_document] at hr
  exact hr.2

/-- The dimensionality of the `embedding` column, `Vector(1536)`
(src/backend/db.py line 38): a write whose embedding has another length is
rejected by the database at commit time. -/
def vdim : Nat := 1536

/-- `store_document` (src/backend/db.py lines 146-174).  The outer `Except`
models whether an exception escapes to the caller.  On a well-dimensioned
embedding the record is appended as one row with the next store-assigned
id.  On a dimensionality mismatch the commit raises, the broad `except`
logs, rolls the transaction back and returns None — so the call always
returns normally and the store is left as it was. -/
def store_document (store : List DocRow) (nextId : Nat)
    (filename content : String) (embedding : List ℚ)
    (metadata : Option Dict) : Except String (List DocRow × Option Nat) :=
  let md := metadata.getD []
  if embedding.length = vdim then
    Except.ok (store ++ [⟨nextId, filename, content, md, embedding⟩],
      some nextId)
  else
    Except.ok (store, none)

/-- C7 counterexample: writing a two-dimensional embedding into the
1536-dimensional store does not fail with an error the caller can see — the
call returns normally (with None and the unchanged store), so the claim
that the write "fails with a StoreError" fails. -/
theorem c7_counterexample :
    store_document [] 1 "f.txt" "chunk" [1, 2] none =
      Except.ok (([] : List DocRow), none) := by
  simp [store_document, vdim]

/-- C7 amended: writing a record whose embedding has the wrong
dimensionality is caught inside `store_document` (rolled back, logged) and
reported by returning None instead of an id; the store is unchanged, so the
record count after the failed write equals the count before it and no
partial content/embedding/metadata triple is persisted. -/
theorem c7_wrong_dim_write_rolls_back (store : List DocRow) (nextId : Nat)
    (filename content : String) (embedding : List ℚ)
    (metadata : Option Dict) (h : embedding.length ≠ vdim) :
    store_document store nextId filename content embedding metadata =
      Except.ok (store, none) := by
  simp [store_document, h]

/-- Witness for C7 amended at a concrete wrong-dimension write: the one-row
store is returned unchanged together with None. -/
theorem c7_wrong_dim_witness :
    store_document [rowA] 2 "f.txt" "chunk" [1, 2] none =
      Except.ok ([rowA], none) :=
  c7_wrong_dim_write_rolls_back [rowA] 2 "f.txt" "chunk" [1, 2] none
    (by simp [vdim])

/-- The default per-chunk metadata built by
`EmbeddingService.process_document` (src/backend/embeddings.py lines
95-100). -/
def defaultMeta (filename : String) (i total csize : Nat) : Dict :=
  [("filename", MVal.str filename), ("chunk_index", MVal.nat i),
   ("total_chunks", MVal.nat total), ("chunk_size", MVal.nat csize)]

/-- One element of `process_document`'s result: a chunk's content, its
embedding and its metadata dict. -/
structure ChunkData where
  content : String
  embedding : List ℚ
  metadata : Dict
deriving DecidableEq, Repr

/-- `EmbeddingService.process_document` (src/backend/embeddings.py lines
80-105).  The langchain chunker and the OpenAI batch embedder are external
calls, abstracted by their outputs `chunks` and `embeddings`: the function
zips the chunks with their embeddings and attaches the default metadata,
`chunk_size` being the chunk's character length. -/
def process_document (chunks : List String) (embeddings : List (List ℚ))
    (filename : String) : List ChunkData :=
  (chunks.zip embeddings).enum.map
    (fun p => ⟨p.2.1, p.2.2, defaultMeta filename p.1 chunks.length p.2.1.length⟩)

/-- The arguments of one `store_document` call made by
`RAGPipeline.process_and_store_document`: the `filename=` argument is read
back out of the metadata dict, the chunk's content and embedding are passed
through, and the merged dict is passed as the row's metadata. -/
structure StoreCall where
  filename : Option MVal
  content : String
  embedding : List ℚ
  metadata : Dict
deriving DecidableEq, Repr

/-- `RAGPipeline.process_and_store_document` (src/backend/rag_pipeline.py
lines 56-84), chunker and embedder abstracted as in `process_document`.
For each chunk, `chunk_metadata` aliases `chunk_data["metadata"]`, so after
`chunk_metadata.update(metadata)` the later read
`chunk_data["metadata"]["filename"]` sees the caller's update; `if
metadata:` is false for None and for an empty dict, skipping the update.
The read never misses because the default metadata always binds
`"filename"` and `update` removes no key. -/
def process_and_store_document (chunks : List String)
    (embeddings : List (List ℚ)) (filename : String)
    (metadata : Option Dict) : List StoreCall :=
  (process_document chunks embeddings filename).map (fun cd =>
    let merged := match metadata with
      | none => cd.metadata
      | some m => if m.isEmpty then cd.metadata else dictUpdate cd.metadata m
    ⟨dictGet merged "filename", cd.content, cd.embedding, merged⟩)

/-- Looking up the key just assigned finds the assigned value. -/
theorem dictGet_dictInsert_self (d : Dict) (k : String) (v : MVal) :
    dictGet (dictInsert d k v) k = some v := by
  induction d with
  | nil => simp [dictInsert, dictGet]
  | cons kv t ih =>
    by_cases hk : kv.1 == k
    · simp [dictInsert, hk, dictGet]
    · simp only [dictInsert, hk, Bool.false_eq_true, if_false]
      simpa [dictGet, List.find?, hk] using ih

/-- Assigning one key leaves the lookup of every other key unchanged. -/
theorem dictGet_dictInsert_ne (d : Dict) (k k' : String) (v : MVal)
    (h : k' ≠ k) : dictGet (dictInsert d k v) k' = dictGet d k' := by
  have hne : (k == k') = false := beq_eq_false_iff_ne.mpr (Ne.symm h)
  induction d with
  | nil => simp [dictInsert, dictGet, List.find?, hne]
  | cons kv t ih =>
    by_cases hk : kv.1 == k
    · have hkv : kv.1 = k := by simpa using hk
      simp [dictInsert, hk, dictGet, List.find?, hkv, hne]
    · simp only [dictInsert, hk, Bool.false_eq_true, if_false]
      by_cases hk' : kv.1 == k'
      · simp [dictGet, List.find?, hk']
      · simpa [dictGet, List.find?, hk'] using ih

/-- `update` with a dict that does not bind `k` leaves `k`'s lookup
unchanged. -/
theorem dictGet_dictUpdate_not_mem (m d : Dict) (k : String)
    (h : ∀ v, (k, v) ∉ m) : dictGet (dictUpdate d m) k = dictGet d k := by
  induction m generalizing d with
  | nil => rfl
  | cons kv t ih =>
    have hne : k ≠ kv.1 := by
      intro he
      exact h kv.2 (by rw [he]; exact List.mem_cons_self _ _)
    have ht : ∀ v, (k, v) ∉ t := fun v hv => h v (List.mem_cons_of_mem _ hv)
    calc dictGet (dictUpdate (dictInsert d kv.1 kv.2) t) k
        = dictGet (dictInsert d kv.1 kv.2) k := ih _ ht
      _ = dictGet d k := dictGet_dictInsert_ne d kv.1 k kv.2 hne

/-- `update` with a uniquely-keyed dict that binds `k` to `v` makes `k`'s
lookup `v`. -/
theorem dictGet_dictUpdate_mem (m d : Dict) (k : String) (v : MVal)
    (hnd : (m.map Prod.fst).Nodup) (h : (k, v) ∈ m) :
    dictGet (dictUpdate d m) k = some v := by
  induction m generalizing d with
  | nil => cases h
  | cons kv t ih =>
    rcases List.mem_cons.mp h with he | ht
    · have hk1 : kv.1 = k := by rw [← he]
      have hnotin : kv.1 ∉ t.map Prod.fst := (List.nodup_cons.mp hnd).1
      have hkt : ∀ w, (k, w) ∉ t := by
        intro w hw
        apply hnotin
        rw [hk1]
        exact List.mem_map_of_mem Prod.fst hw
      calc dictGet (dictUpdate (dictInsert d kv.1 kv.2) t) k
          = dictGet (dictInsert d kv.1 kv.2) k :=
            dictGet_dictUpdate_not_mem t _ k hkt
        _ = some v := by
            rw [← he]
            exact dictGet_dictInsert_self d k v
    · exact ih _ (List.nodup_cons.mp hnd).2 ht

/-- Every chunk produced by `process_document` carries the default
metadata, whose `"filename"` binding is the filename argument. -/
theorem process_document_filename (chunks : List String)
    (embeddings : List (List ℚ)) (filename : String) (cd : ChunkData)
    (hcd : cd ∈ process_document chunks embeddings filename) :
    dictGet cd.metadata "filename" = some (MVal.str filename) := by
  obtain ⟨p, _, hp⟩ := List.mem_map.mp hcd
  rw [← hp]
  rfl

/-- C3 counterexample: ingesting `"hello"` as `a.txt` with caller metadata
that binds `"filename"` to `"evil.txt"` produces a store call whose
filename argument is `"evil.txt"`, not the filename argument `"a.txt"` of
the ingest call: the caller's update is applied to the aliased dict before
the filename is read back from it. -/
theorem c3_counterexample :
    (process_and_store_document ["hello"] [[1]] "a.txt"
        (some [("filename", MVal.str "evil.txt")])).map
      (fun c => c.filename) = [some (MVal.str "evil.txt")] ∧
    MVal.str "evil.txt" ≠ MVal.str "a.txt" := by
  refine ⟨rfl, by simp⟩

/-- C3 amended: caller-supplied metadata is merged into each chunk's
default metadata and may overwrite every default key, `filename` included:
each stored chunk's filename argument equals the caller-supplied
`"filename"` metadata value when one is supplied, and the ingest call's
filename argument otherwise. -/
theorem c3_filename_follows_merged_metadata (chunks : List String)
    (embeddings : List (List ℚ)) (filename : String) (m : Dict)
    (call : StoreCall) (hnd : (m.map Prod.fst).Nodup)
    (hc : call ∈ process_and_store_document chunks embeddings filename
      (some m)) :
    (∀ v, ("filename", v) ∈ m → call.filename = some v) ∧
    ((∀ v, ("filename", v) ∉ m) →
      call.filename = some (MVal.str filename)) := by
  obtain ⟨cd, hcd, hcall⟩ := List.mem_map.mp hc
  have hbase : dictGet cd.metadata "filename" = some (MVal.str filename) :=
    process_document_filename chunks embeddings filename cd hcd
  constructor
  · intro v hv
    have hm : ¬ m.isEmpty := by
      cases m with
      | nil => cases hv
      | cons a t => simp [List.isEmpty]
    rw [← hcall]
    simp only [hm, if_false, Bool.false_eq_true]
    exact dictGet_dictUpdate_mem m cd.metadata "filename" v hnd hv
  · intro hnone
    rw [← hcall]
    by_cases hm : m.isEmpty
    · simpa [hm] using hbase
    · simp only [hm, if_false, Bool.false_eq_true]
      rw [dictGet_dictUpdate_not_mem m cd.metadata "filename" hnone]
      exact hbase

/-- The store call produced by the witness ingest: the merged metadata has
the caller's `"filename"` value in place of the default. -/
def exCall3 : StoreCall :=
  ⟨some (MVal.str "evil.txt"), "hello", [1],
   [("filename", MVal.str "evil.txt"), ("chunk_index", MVal.nat 0),
    ("total_chunks", MVal.nat 1), ("chunk_size", MVal.nat 5)]⟩

/-- Witness for C3 amended at the concrete ingest call: the stored filename
is the caller-supplied value. -/
theorem c3_overwrite_witness : exCall3.filename = some (MVal.str "evil.txt") :=
  (c3_filename_follows_merged_metadata ["hello"] [[1]] "a.txt"
      [("filename", MVal.str "evil.txt")] exCall3 (by simp)
      (by decide)).1
    (MVal.str "evil.txt") (List.mem_singleton.mpr rfl)

/-- The fixed no-relevant-information answer of `answer_question`
(src/backend/rag_pipeline.py line 103). -/
def noInfoAnswer : String :=
  "I couldn't find any relevant information to answer your question."

/-- One entry of the `sources` list of `answer_question`
(src/backend/rag_pipeline.py lines 135-142). -/
structure Source where
  filename : String
  content : String
  similarity : ℚ
deriving DecidableEq, Repr

/-- The response shape of `answer_question`: answer, sources, confidence. -/
structure QAResult where
  answer : String
  sources : List Source
  confidence : ℚ
deriving DecidableEq, Repr

/-- The source entry for one retrieved document: the content is truncated
to its first 200 characters plus an ellipsis marker when longer than 200
(src/backend/rag_pipeline.py line 138). -/
def mkSource (doc : ScoredDoc) : Source :=
  ⟨doc.filename,
   if doc.content.length > 200 then doc.content.take 200 ++ "..."
   else doc.content,
   doc.similarity⟩

/-- The grounding prompt of `answer_question` (src/backend/rag_pipeline.py
lines 112-121): the instruction text around the concatenated context and
the question. -/
def mkPrompt (context question : String) : String :=
  "\n            Based on the following context, please answer the question. " ++
  "If the answer cannot be found in the context, say " ++
  "\"I don't have enough information to answer this question.\"" ++
  "\n\n            Context:\n            " ++ context ++
  "\n\n            Question: " ++ question ++
  "\n\n            Answer:\n            "

/-- `answer_question` from the point the retrieval result `docs` is known
(src/backend/rag_pipeline.py lines 101-144).  `llm` is the external
generative model, `self.llm.invoke`; the second component of the result
collects the prompts sent to it, so `[]` means the model was not invoked.
On an empty retrieval the fixed answer, empty sources and confidence 0 are
returned at once; otherwise the chunks' contents joined by blank lines
ground one prompt, and the confidence is `min` of the average similarity
and 1. -/
def answerQuestionFrom (question : String) (docs : List ScoredDoc)
    (llm : String → String) : QAResult × List String :=
  if docs.isEmpty then (⟨noInfoAnswer, [], 0⟩, [])
  else
    let context := String.intercalate "\n\n" (docs.map (fun doc => doc.content))
    let prompt := mkPrompt context question
    let avgSimilarity :=
      (docs.map (fun doc => doc.similarity)).sum / (docs.length : ℚ)
    (⟨llm prompt, docs.map mkSource, min avgSimilarity 1⟩, [prompt])

/-- C4: whenever retrieval returns no chunks, question answering returns
the fixed no-relevant-information answer with an empty sources list and
confidence exactly 0, and sends no prompt to the generative model (the
invocation log is empty, and the result does not depend on `llm`). -/
theorem c4_empty_retrieval_fixed_answer (question : String)
    (llm : String → String) :
    answerQuestionFrom question [] llm = (⟨noInfoAnswer, [], 0⟩, []) := rfl

/-- Three retrieved documents with similarities 9/10, 8/10 and 7/10. -/
def exampleDocs : List ScoredDoc :=
  [⟨1, "a.txt", "x", [], 9/10⟩, ⟨2, "b.txt", "y", [], 8/10⟩,
   ⟨3, "c.txt", "z", [], 7/10⟩]

/-- C2: for every non-empty retrieval result of the pipeline (the pipeline
queries the store with the default similarity threshold 7/10, as
`answer_question` passes no `similarity_threshold`), the confidence of the
synthesized answer equals the arithmetic mean of the retrieved similarity
scores clamped into [0,1]; and for similarities 9/10, 8/10, 7/10 the
confidence is exactly 8/10. -/
theorem c2_confidence_is_clamped_mean :
    (∀ (question : String) (llm : String → String) (store : List DocRow)
        (d : List ℚ → ℚ) (lim : Nat) (docs : List ScoredDoc),
      GetSimilarRows store d (7/10) lim docs → docs ≠ [] →
      (answerQuestionFrom question docs llm).1.confidence =
        max 0 (min ((docs.map (fun doc => doc.similarity)).sum /
          (docs.length : ℚ)) 1)) ∧
    (answerQuestionFrom "q" exampleDocs (fun _ => "a")).1.confidence
      = 8/10 := by
  constructor
  · intro question llm store d lim docs hres hne
    have hpos : ∀ x ∈ docs, (7/10 : ℚ) < x.similarity := by
      intro x hx
      obtain ⟨r, _, hxr, hthr⟩ := getSimilarRows_mem hres x hx
      rw [hxr]
      simpa [scoreRow] using hthr
    have hsum : 0 ≤ (docs.map (fun doc => doc.similarity)).sum := by
      apply List.sum_nonneg
      intro a ha
      obtain ⟨x, hx, hxa⟩ := List.mem_map.mp ha
      have := hpos x hx
      rw [← hxa]
      linarith
    have havg : 0 ≤ (docs.map (fun doc => doc.similarity)).sum /
        (docs.length : ℚ) :=
      div_nonneg hsum (by positivity)
    have hclamp : max 0 (min ((docs.map (fun doc => doc.similarity)).sum /
        (docs.length : ℚ)) 1) =
        min ((docs.map (fun doc => doc.similarity)).sum /
          (docs.length : ℚ)) 1 :=
      max_eq_right (le_min havg (by norm_num))
    rw [hclamp]
    have hde : docs.isEmpty = false := by
      cases docs with
      | nil => exact absurd rfl hne
      | cons a t => rfl
    simp [answerQuestionFrom, hde]
  · norm_num [answerQuestionFrom, exampleDocs, min_def]

/-- A stored chunk whose similarity to the query under `dEx` is 4/5. -/
def rowW : DocRow := ⟨7, "w.txt", "w", [], [1/5]⟩

/-- Witness for C2 at a concrete one-document retrieval above the 7/10
threshold: the confidence equals the clamped mean of the similarities. -/
theorem c2_confidence_witness :
    (answerQuestionFrom "q" [scoreRow dEx rowW] (fun _ => "a")).1.confidence =
      max 0 (min ((([scoreRow dEx rowW] : List ScoredDoc).map
        (fun doc => doc.similarity)).sum /
        (([scoreRow dEx rowW] : List ScoredDoc).length : ℚ)) 1) :=
  c2_confidence_is_clamped_mean.1 "q" (fun _ => "a") [rowW] dEx 5
    [scoreRow dEx rowW]
    ⟨[rowW], by simp [matching, rowW, dEx]; norm_num, by simp, by simp⟩
    (by simp)

/-- `EmbeddingService.chunk_text` (src/backend/embeddings.py lines 62-78).
It constructs a `RecursiveCharacterTextSplitter` with the given parameters
and calls its `split_text`; both are third-party langchain code, modelled
at their interface: the `TextSplitter` constructor raises
`ValueError("Got a larger chunk overlap ... than chunk size ...")` exactly
when `chunk_overlap > chunk_size`, and otherwise `split_text` (a
terminating computation, abstracted as the parameter `split`) returns the
list of chunks.  The `except` clause of `chunk_text` logs and re-raises,
so the ValueError propagates to the caller. -/
def chunk_text (split : String → Nat → Nat → List String) (text : String)
    (chunk_size chunk_overlap : Nat) : Except String (List String) :=
  if chunk_overlap > chunk_size then
    Except.error
      "Got a larger chunk overlap than chunk size, should be smaller."
  else
    Except.ok (split text chunk_size chunk_overlap)

/-- A trivial stand-in for the third-party splitter body, used only to
instantiate `chunk_text` at a concrete call. -/
def splitStub : String → Nat → Nat → List String := fun text _ _ => [text]

/-- C9 counterexample: a call with `chunk_overlap` equal to `chunk_size`
(1 and 1) does not fail fast — the constructor's check is strict, so the
call returns chunks normally, refuting the claim for the `=` half of
`>=`.  The guard's outcome does not depend on the splitter body. -/
theorem c9_counterexample :
    chunk_text splitStub "ab" 1 1 = Except.ok ["ab"] := rfl

/-- C9 amended: a call with `chunk_overlap` strictly greater than
`chunk_size` fails fast with the configuration ValueError; a call with
`chunk_overlap` equal to (or below) `chunk_size` is accepted and returns
the splitter's chunks. -/
theorem c9_overlap_strictly_greater_fails_fast
    (split : String → Nat → Nat → List String) (text : String)
    (chunk_size chunk_overlap : Nat) :
    (chunk_size < chunk_overlap →
      chunk_text split text chunk_size chunk_overlap =
        Except.error
          "Got a larger chunk overlap than chunk size, should be smaller.") ∧
    (chunk_overlap ≤ chunk_size →
      chunk_text split text chunk_size chunk_overlap =
        Except.ok (split text chunk_size chunk_overlap)) := by
  constructor
  · intro h
    simp [chunk_text, h]
  · intro h
    simp [chunk_text, Nat.not_lt.mpr h]

/-- `np.dot` of two vectors (src/backend/embeddings.py line 143), embedded
over the reals. -/
def dotp (v w : List ℝ) : ℝ := (List.zipWith (fun a b => a * b) v w).sum

/-- `np.linalg.norm` (src/backend/embeddings.py lines 144-145): the
Euclidean norm, the square root of the vector's dot product with itself. -/
noncomputable def vnorm (v : List ℝ) : ℝ := Real.sqrt (dotp v v)

/-- `EmbeddingService._cosine_similarity` (src/backend/embeddings.py lines
136-150): 0.0 when either vector has zero norm, otherwise the dot product
divided by the product of the norms. -/
noncomputable def cosine_similarity (v1 v2 : List ℝ) : ℝ :=
  if vnorm v1 = 0 ∨ vnorm v2 = 0 then 0
  else dotp v1 v2 / (vnorm v1 * vnorm v2)

/-- C10: the in-process cosine similarity is a total function; whenever
either vector has zero norm it returns exactly 0, and on the remaining
branch the divisor, the product of the two norms, is nonzero. -/
theorem c10_cosine_similarity_total_zero_norm :
    (∀ v1 v2 : List ℝ, vnorm v1 = 0 ∨ vnorm v2 = 0 →
      cosine_similarity v1 v2 = 0) ∧
    (∀ v1 v2 : List ℝ, vnorm v1 ≠ 0 → vnorm v2 ≠ 0 →
      vnorm v1 * vnorm v2 ≠ 0 ∧
      cosine_similarity v1 v2 = dotp v1 v2 / (vnorm v1 * vnorm v2)) := by
  constructor
  · intro v1 v2 h
    simp [cosine_similarity, h]
  · intro v1 v2 h1 h2
    refine ⟨mul_ne_zero h1 h2, ?_⟩
    simp [cosine_similarity, h1, h2]

/-- Witness for C10 at concrete vectors: the zero vector has zero norm, and
the similarity against any vector is exactly 0. -/
theorem c10_zero_norm_witness : cosine_similarity [0] [1] = 0 :=
  c10_cosine_similarity_total_zero_norm.1 [0] [1]
    (Or.inl (by simp [vnorm, dotp]))

end DocQA
